import Mathlib

/-!
Verification of the exec-rs swap executor (`src/exec-rs`), a Solana
trading CLI. We shallowly embed the transaction-preparation,
submission-confirmation, result-extraction and health-probe code of
`src/commands/swap.rs` and `src/commands/ping.rs` and prove the spec's
claims about them.

External collaborators (the ledger RPC endpoint, the aggregator HTTP
service, wallet loading) are modelled as oracles supplied through
environment records: each fallible call is an `Except`-valued field,
indexed by iteration number where the code calls it repeatedly.
Machine integers are `Nat` with explicit `% 2^32` where the Rust `u32`
arithmetic can overflow.
-/

namespace ExecRs

/-- Signature status as returned by `get_signature_status` when the RPC
call itself succeeds: `Option<Result<(), TransactionError>>` in the
source. `notSeen` is Rust's `None`, `confirmed` is `Some(Ok(()))`,
`failed e` is `Some(Err(e))`. -/
inductive SigStatus where
  | confirmed : SigStatus
  | failed (err : String) : SigStatus
  | notSeen : SigStatus
deriving DecidableEq, Repr

/-- Outcome of the confirmation polling loop in
`SwapCommand::execute_simple_swap` (swap.rs lines 226-255). In the
source all non-`confirmed` outcomes are distinct `anyhow` errors; we
keep them as distinct constructors. `rpcError` is a `?`-propagated
failure of `get_block_height` or `get_signature_status` itself. -/
inductive LoopResult where
  | confirmed (height : Nat) : LoopResult
  | failed (err : String) : LoopResult
  | expired (height : Nat) : LoopResult
  | timedOut : LoopResult
  | rpcError (err : String) : LoopResult
deriving DecidableEq, Repr

/-- The RPC queries the polling loop issues, in the order the code
issues them; used to state ordering claims about the loop body. -/
inductive RpcQuery where
  | getBlockHeight : RpcQuery
  | getSignatureStatus : RpcQuery
deriving DecidableEq, Repr

/-- One round of the `loop` in `execute_simple_swap` together with the
queries it performs, embedded from swap.rs lines 226-255.  The oracles
`getHeight` and `getStatus` give the result of the two RPC calls at
each iteration; they are indexed by the value of `attempts` after the
`attempts += 1` at the top of the loop body (so iteration numbers start
at 1).  The loop body, in source order:
  1. `attempts += 1`;
  2. `client.get_block_height()?` and the height-expiry check;
  3. `client.get_signature_status(&signature)?` and the three-way match;
  4. in the `None` arm, the `attempts >= max_attempts` timeout check,
     else sleep and loop again. -/
def confirmLoopT (lastValid maxAttempts : Nat)
    (getHeight : Nat → Except String Nat)
    (getStatus : Nat → Except String SigStatus)
    (attempts : Nat) : LoopResult × List RpcQuery :=
  let a := attempts + 1
  match getHeight a with
  | .error e => (.rpcError e, [.getBlockHeight])
  | .ok h =>
    if lastValid < h then
      (.expired h, [.getBlockHeight])
    else
      match getStatus a with
      | .error e => (.rpcError e, [.getBlockHeight, .getSignatureStatus])
      | .ok .confirmed => (.confirmed h, [.getBlockHeight, .getSignatureStatus])
      | .ok (.failed err) => (.failed err, [.getBlockHeight, .getSignatureStatus])
      | .ok .notSeen =>
        if maxAttempts ≤ a then
          (.timedOut, [.getBlockHeight, .getSignatureStatus])
        else
          let rest := confirmLoopT lastValid maxAttempts getHeight getStatus a
          (rest.1, .getBlockHeight :: .getSignatureStatus :: rest.2)
termination_by maxAttempts - attempts
decreasing_by
  simp only [a] at *
  omega

/-- The confirmation loop's result, forgetting the query trace. -/
def confirmLoop (lastValid maxAttempts : Nat)
    (getHeight : Nat → Except String Nat)
    (getStatus : Nat → Except String SigStatus)
    (attempts : Nat) : LoopResult :=
  (confirmLoopT lastValid maxAttempts getHeight getStatus attempts).1

/-- Fuel-bounded variant of the confirmation loop, used to state that the
loop needs at most `maxAttempts` polling iterations: `none` means the
fuel ran out before the loop returned. The body is the same as
`confirmLoopT` with the trace dropped. -/
def confirmLoopFuel (lastValid maxAttempts : Nat)
    (getHeight : Nat → Except String Nat)
    (getStatus : Nat → Except String SigStatus) :
    Nat → Nat → Option LoopResult
  | 0, _ => none
  | fuel + 1, attempts =>
    let a := attempts + 1
    match getHeight a with
    | .error e => some (.rpcError e)
    | .ok h =>
      if lastValid < h then
        some (.expired h)
      else
        match getStatus a with
        | .error e => some (.rpcError e)
        | .ok .confirmed => some (.confirmed h)
        | .ok (.failed err) => some (.failed err)
        | .ok .notSeen =>
          if maxAttempts ≤ a then
            some .timedOut
          else
            confirmLoopFuel lastValid maxAttempts getHeight getStatus fuel a

/-! ## Transactions and the builder (swap.rs lines 158-206)

A ledger transaction is modelled at the granularity the claims need:
a message holds the signer header, the account keys (the fee payer is
the first key), the recent blockhash and the instruction list; a
signature attests a specific message value (an ed25519 signature is a
function of the signer key and the exact message bytes, which the pair
`(signer, signedMsg)` captures). Public keys and blockhashes are `Nat`. -/

/-- One instruction of a transaction message. The two compute-budget
directives the builder can inject are explicit constructors; every
other instruction (the swap instructions delivered by the aggregator)
is `raw` with its program-id index, account indices and data bytes. -/
inductive Instr where
  | computeUnitLimit (units : Nat) : Instr
  | computeUnitPrice (microLamports : Nat) : Instr
  | raw (programIdIndex : Nat) (accounts : List Nat) (data : List Nat) : Instr
deriving DecidableEq, Repr

/-- A transaction message: header (number of required signatures),
account keys (fee payer first), recent blockhash, instructions. -/
structure MessageM where
  numRequiredSignatures : Nat
  accountKeys : List Nat
  recentBlockhash : Nat
  instructions : List Instr
deriving DecidableEq, Repr

/-- A signature record: which key signed and the exact message value the
signature attests. -/
structure SigRec where
  signer : Nat
  signedMsg : MessageM
deriving DecidableEq, Repr

/-- A transaction: signatures plus message. -/
structure TransactionM where
  signatures : List SigRec
  message : MessageM
deriving DecidableEq, Repr

/-- The keys that must sign the message: the first
`numRequiredSignatures` account keys (the fee payer is the first). -/
def requiredSignerKeys (m : MessageM) : List Nat :=
  m.accountKeys.take m.numRequiredSignatures

/-- Models `Transaction::sign(&[wallet], blockhash)` from solana-sdk
(an external collaborator): the blockhash is written into the message
and signatures are produced for all required signer keys.  The SDK
panics (modelled as `none`) when the wallet's key is not among the
required signer keys (`KeypairPubkeyMismatch`) or when the provided
keypairs do not cover all required signatures (`NotEnoughSigners`);
with the single wallet keypair the call succeeds exactly when every
required signer key is the wallet's key and there is at least one. -/
def signWith (walletPk : Nat) (tx : TransactionM) (blockhash : Nat) :
    Option TransactionM :=
  let m := { tx.message with recentBlockhash := blockhash }
  let req := requiredSignerKeys m
  if walletPk ∈ req ∧ req.all (· = walletPk) then
    some { signatures := req.map (fun k => { signer := k, signedMsg := m }),
           message := m }
  else
    none

/-- Models `SwapCommand::prepare_transaction` (swap.rs lines 158-170)
after decode: the base64/bincode decoding of the aggregator payload is
an external step supplied by the environment, so this takes the decoded
transaction, reads its own recent blockhash and signs with the wallet
key. -/
def prepare_transaction (walletPk : Nat) (tx : TransactionM) :
    Option TransactionM :=
  signWith walletPk tx tx.message.recentBlockhash

/-- The `u32` modulus: the Rust arithmetic deriving the compute limit is
done in `u32`. -/
def u32Mod : Nat := 4294967296

/-- The dynamic compute-unit limit from swap.rs lines 176-182:
`base_limit + instruction_count * 50_000` computed in `u32` (release
builds wrap on overflow), then capped with `min` at 1_400_000. The
`% u32Mod` steps are the `as u32` cast of the length and the wrapping
of the `u32` multiplication and addition. -/
def deriveComputeLimit (instructionCount : Nat) : Nat :=
  let ic := instructionCount % u32Mod
  let dynamicLimit := (200000 + (ic * 50000) % u32Mod) % u32Mod
  min dynamicLimit 1400000

/-- The compute-unit limit actually used (swap.rs line 176):
`self.compute_unit_limit.unwrap_or_else(dynamic)`. -/
def selectComputeLimit (explicit : Option Nat) (instructionCount : Nat) : Nat :=
  match explicit with
  | some l => l
  | none => deriveComputeLimit instructionCount

/-- Models `Message::new(&instructions, Some(&payer))` from solana-sdk
(external): the payer is placed first in the account keys and is the
required signer; compute-budget instructions add no further signers
and the non-payer account keys play no role in any claim, so they are
elided. The blockhash is zeroed until `Transaction::new` sets it. -/
def newMessage (instrs : List Instr) (payer : Nat) : MessageM :=
  { numRequiredSignatures := 1
    accountKeys := [payer]
    recentBlockhash := 0
    instructions := instrs }

/-- Models `Transaction::new(&[wallet], message, blockhash)` from
solana-sdk (external): sign a fresh transaction over the message with
the blockhash; panics (modelled `none`) under the same conditions as
`signWith`. -/
def newTransaction (walletPk : Nat) (m : MessageM) (blockhash : Nat) :
    Option TransactionM :=
  signWith walletPk { signatures := [], message := m } blockhash

/-- Models `SwapCommand::add_compute_budget_instructions` (swap.rs
lines 172-206): choose the compute-unit limit and the priority fee
(explicit value or default), push the limit instruction, push the
price instruction, append the original instructions, rebuild the
message with the wallet as payer and re-sign with the transaction's
recent blockhash. -/
def add_compute_budget_instructions (computeUnitLimitOpt priorityFeeOpt : Option Nat)
    (walletPk : Nat) (tx : TransactionM) : Option TransactionM :=
  let compute_limit := selectComputeLimit computeUnitLimitOpt tx.message.instructions.length
  let priority_fee := priorityFeeOpt.getD 1000
  let instructions := Instr.computeUnitLimit compute_limit ::
    Instr.computeUnitPrice priority_fee :: tx.message.instructions
  let message := newMessage instructions walletPk
  newTransaction walletPk message tx.message.recentBlockhash

/-- The guard at swap.rs lines 141-144: the builder is invoked only
when a priority fee or a compute-unit limit was requested; otherwise
the prepared transaction passes through unchanged. -/
def applyComputeDirectives (computeUnitLimitOpt priorityFeeOpt : Option Nat)
    (walletPk : Nat) (tx : TransactionM) : Option TransactionM :=
  if priorityFeeOpt.isSome || computeUnitLimitOpt.isSome then
    add_compute_budget_instructions computeUnitLimitOpt priorityFeeOpt walletPk tx
  else
    some tx

/-! ## Result extraction (swap.rs lines 287-303) -/

/-- One entry of `meta.post_token_balances`: the mint and the amount
string of `ui_token_amount.amount`. -/
structure TokenBalance where
  mint : String
  amount : String
deriving DecidableEq, Repr

/-- The transaction metadata, as far as extraction reads it. -/
structure TxMeta where
  post_token_balances : Option (List TokenBalance)
deriving DecidableEq, Repr

/-- A confirmed transaction as returned by
`get_transaction_with_config`: its slot and optional metadata. -/
structure ConfirmedTx where
  slot : Nat
  meta : Option TxMeta
deriving DecidableEq, Repr

/-- The `for balance in post_balances` scan of
`extract_received_amount`: the amount of the first balance entry whose
mint equals the output mint, if any. -/
def findMintAmount (outputMint : String) : List TokenBalance → Option String
  | [] => none
  | b :: rest =>
    if b.mint = outputMint then some b.amount else findMintAmount outputMint rest

/-- Models `SwapCommand::extract_received_amount` (swap.rs lines
287-303): if metadata and post-token balances are present and hold an
entry for the output mint, return its amount; in every other case fall
back to `Ok("0")`. The Rust signature is `Result<String>`; no path of
the body produces an error. -/
def extract_received_amount (outputMint : String) (tx : ConfirmedTx) :
    Except String String :=
  match tx.meta with
  | some meta =>
    match meta.post_token_balances with
    | some post =>
      match findMintAmount outputMint post with
      | some amt => .ok amt
      | none => .ok "0"
    | none => .ok "0"
  | none => .ok "0"

/-- The post-execution token-balance records of a confirmed
transaction, empty when the metadata or the balance list is absent;
used to state when no record matches the output asset. -/
def postBalances (ctx : ConfirmedTx) : List TokenBalance :=
  match ctx.meta with
  | some meta => meta.post_token_balances.getD []
  | none => []

/-! ## The swap pipeline (swap.rs lines 60-156 and 208-273)

External calls are supplied by an environment record.  Each
`execute_*` model returns its `Result` value together with the number
of times `send_transaction` was invoked (the broadcast count), which
is how "no transaction is ever broadcast" is made observable. -/

/-- The environment of one `execute_swap` run: results of the wallet
load, the aggregator calls, the decode step and the RPC calls. The
route payload and the encoded swap transaction are kept as opaque
strings. `heights` and `statuses` are indexed by polling iteration as
in `confirmLoopT`. -/
structure SwapEnv where
  walletLoad : Except String Nat
  parseRouteInfo : String → Except String String
  getQuote : Except String String
  getSwapTransaction : String → Except String String
  decodeTransaction : String → Except String TransactionM
  blockHeightAtSend : Except String Nat
  send : TransactionM → Except String String
  heights : Nat → Except String Nat
  statuses : Nat → Except String SigStatus
  getTransaction : Except String ConfirmedTx

/-- The arguments of `SwapCommand` (swap.rs lines 17-29) that the
model reads. -/
structure SwapCmd where
  output_mint : String
  mode : String
  idempotency_key : Option String
  route_info : Option String
  priority_fee : Option Nat
  compute_unit_limit : Option Nat
deriving DecidableEq, Repr

/-- Models `SwapCommand::execute_simple_swap` (swap.rs lines 208-273):
read the block height, set `last_valid = height + 150`, broadcast, run
the confirmation loop with `max_attempts = 60` starting from
`attempts = 0`, and on a confirmed outcome fetch the transaction and
extract the received amount. The second component counts
`send_transaction` calls. -/
def execute_simple_swap (outputMint : String) (env : SwapEnv)
    (transaction : TransactionM) : Except String (String × String × Nat) × Nat :=
  match env.blockHeightAtSend with
  | .error e => (.error e, 0)
  | .ok h0 =>
    let lastValid := h0 + 150
    match env.send transaction with
    | .error e => (.error e, 1)
    | .ok sig =>
      match confirmLoop lastValid 60 env.heights env.statuses 0 with
      | .confirmed _ =>
        match env.getTransaction with
        | .error e => (.error e, 1)
        | .ok ctx =>
          match extract_received_amount outputMint ctx with
          | .error e => (.error e, 1)
          | .ok amt => (.ok (sig, amt, ctx.slot), 1)
      | .failed err => (.error ("Transaction failed: " ++ err), 1)
      | .expired h =>
        (.error ("Transaction expired: current height " ++ toString h ++
          " is beyond last valid " ++ toString lastValid), 1)
      | .timedOut => (.error "Transaction confirmation timeout", 1)
      | .rpcError e => (.error e, 1)

/-- The route acquisition step at swap.rs lines 124-133: parse the
caller-provided route info when present, otherwise fetch a quote. -/
def routeResult (cmd : SwapCmd) (env : SwapEnv) : Except String String :=
  match cmd.route_info with
  | some info => env.parseRouteInfo info
  | none => env.getQuote

/-- Models `SwapCommand::execute_swap` (swap.rs lines 115-156): load
the wallet, obtain the route (parse the provided one or fetch a
quote), fetch the swap transaction, decode and sign it, inject compute
directives when requested, then dispatch on the mode string. The
`"jito"` and `"bloxroute"` arms (swap.rs lines 275-285) return their
not-implemented errors without any RPC call; every unrecognized mode
falls into the wildcard arm, which runs the simple path. -/
def execute_swap (cmd : SwapCmd) (env : SwapEnv) :
    Except String (String × String × Nat) × Nat :=
  match env.walletLoad with
  | .error e => (.error e, 0)
  | .ok walletPk =>
    match routeResult cmd env with
    | .error e => (.error e, 0)
    | .ok route =>
      match env.getSwapTransaction route with
      | .error e => (.error e, 0)
      | .ok payload =>
        match env.decodeTransaction payload with
        | .error e => (.error e, 0)
        | .ok decodedTx =>
          match prepare_transaction walletPk decodedTx with
          | none => (.error "signing failed", 0)
          | some prepared =>
            match applyComputeDirectives cmd.compute_unit_limit cmd.priority_fee
                walletPk prepared with
            | none => (.error "signing failed", 0)
            | some transaction =>
              match cmd.mode with
              | "simple" => execute_simple_swap cmd.output_mint env transaction
              | "jito" => (.error "Jito execution not implemented", 0)
              | "bloxroute" => (.error "bloXroute execution not implemented", 0)
              | _ => execute_simple_swap cmd.output_mint env transaction

/-- The externally observed outcome record (main.rs lines 107-118). -/
structure ExecutorResult where
  success : Bool
  signature : Option String
  received_amount : Option String
  slot : Option Nat
  error : Option String
  logs : Option (List String)
  expected_out : Option String
  compute_units_used : Option Nat
  idempotency_key : Option String
deriving DecidableEq, Repr

/-- Models `SwapCommand::execute` (swap.rs lines 60-113): run the
pipeline and wrap its `Result` into an `ExecutorResult`; the broadcast
count is carried through. -/
def executeCmd (cmd : SwapCmd) (env : SwapEnv) : ExecutorResult × Nat :=
  match execute_swap cmd env with
  | (.ok (sig, amt, slot), b) =>
    ({ success := true
       signature := some sig
       received_amount := some amt
       slot := some slot
       error := none
       logs := some ["Transaction signature: " ++ sig,
                     "Received amount: " ++ amt,
                     "Confirmed at slot: " ++ toString slot]
       expected_out := none
       compute_units_used := none
       idempotency_key := cmd.idempotency_key }, b)
  | (.error e, b) =>
    ({ success := false
       signature := none
       received_amount := none
       slot := none
       error := some ("Swap failed: " ++ e)
       logs := some ["Error: " ++ e]
       expected_out := none
       compute_units_used := none
       idempotency_key := cmd.idempotency_key }, b)

/-! ## The health probe (ping.rs lines 70-87) -/

/-- The five checks of `PingCommand::ping_rpc`, in source order. -/
inductive Check where
  | slot : Check
  | blockHeight : Check
  | epochInfo : Check
  | latestBlockhash : Check
  | accountLookup : Check
deriving DecidableEq, Repr

/-- The order in which `ping_rpc` issues its checks. -/
def pingCheckOrder : List Check :=
  [.slot, .blockHeight, .epochInfo, .latestBlockhash, .accountLookup]

/-- The environment of one probe run: the result of each RPC call
(epoch info, blockhash and account values are opaque `Nat`). -/
structure PingEnv where
  getSlot : Except String Nat
  getBlockHeight : Except String Nat
  getEpochInfo : Except String Nat
  getLatestBlockhash : Except String Nat
  getAccount : Except String Nat

/-- Models `PingCommand::ping_rpc` (ping.rs lines 70-87): the five
checks run in order, each `?` propagates the failing call's own error
value, and the slot from the first check is the success payload. The
second component records the checks actually attempted. -/
def ping_rpc (env : PingEnv) : Except String Nat × List Check :=
  match env.getSlot with
  | .error e => (.error e, [.slot])
  | .ok slot =>
    match env.getBlockHeight with
    | .error e => (.error e, [.slot, .blockHeight])
    | .ok _ =>
      match env.getEpochInfo with
      | .error e => (.error e, [.slot, .blockHeight, .epochInfo])
      | .ok _ =>
        match env.getLatestBlockhash with
        | .error e => (.error e, [.slot, .blockHeight, .epochInfo, .latestBlockhash])
        | .ok _ =>
          match env.getAccount with
          | .error e => (.error e, pingCheckOrder)
          | .ok _ => (.ok slot, pingCheckOrder)

/-! ## Helper lemmas -/

/-- With fuel covering the remaining attempt budget, the fueled loop
agrees with the loop. -/
theorem confirmLoopFuel_eq (lv ma : Nat)
    (gh : Nat → Except String Nat) (gs : Nat → Except String SigStatus) :
    ∀ fuel attempts, ma ≤ attempts + fuel → 1 ≤ fuel →
      confirmLoopFuel lv ma gh gs fuel attempts =
        some (confirmLoop lv ma gh gs attempts) := by
  intro fuel
  induction fuel with
  | zero => intro attempts _ h1; omega
  | succ n ih =>
    intro attempts hma _
    rw [confirmLoopFuel, confirmLoop, confirmLoopT]
    cases hgh : gh (attempts + 1) with
    | error e => simp
    | ok h =>
      simp only
      by_cases hlt : lv < h
      · simp [hlt]
      · simp only [if_neg hlt]
        cases hgs : gs (attempts + 1) with
        | error e => simp
        | ok s =>
          cases s with
          | confirmed => simp
          | failed err => simp
          | notSeen =>
            simp only
            by_cases hma2 : ma ≤ attempts + 1
            · simp [hma2]
            · simp only [if_neg hma2]
              exact ih (attempts + 1) (by omega) (by omega)

/-- When every RPC call succeeds, the fueled loop never produces the
RPC-error outcome. -/
theorem confirmLoopFuel_not_rpcError (lv ma : Nat)
    (gh : Nat → Except String Nat) (gs : Nat → Except String SigStatus)
    (hgh : ∀ i, ∃ x, gh i = .ok x) (hgs : ∀ i, ∃ s, gs i = .ok s) :
    ∀ fuel attempts r, confirmLoopFuel lv ma gh gs fuel attempts = some r →
      ∀ e, r ≠ .rpcError e := by
  intro fuel
  induction fuel with
  | zero => intro attempts r hr; simp [confirmLoopFuel] at hr
  | succ n ih =>
    intro attempts r hr e
    obtain ⟨x, hx⟩ := hgh (attempts + 1)
    obtain ⟨s, hs⟩ := hgs (attempts + 1)
    rw [confirmLoopFuel] at hr
    simp only [hx, hs] at hr
    by_cases hlt : lv < x
    · simp [hlt] at hr; simp [← hr]
    · simp only [if_neg hlt] at hr
      cases s with
      | confirmed => simp at hr; simp [← hr]
      | failed err => simp at hr; simp [← hr]
      | notSeen =>
        simp only at hr
        by_cases hma2 : ma ≤ attempts + 1
        · simp [hma2] at hr; simp [← hr]
        · simp only [if_neg hma2] at hr
          exact ih (attempts + 1) r hr e

/-! ## Claims about the confirmation loop (C1-C4) -/

/-- C1: in the confirmation polling loop with expiry bound `H0 + 150`,
if the block height observed at any iteration exceeds the bound, the
loop returns the `Expired` outcome at once — from every attempt count,
so regardless of how many polling attempts remain under the 60-attempt
ceiling, and without even querying the signature status (so a fortiori
before any status resolution). -/
theorem claim1_height_expiry_overrides_budget (h0 attempts h : Nat)
    (gh : Nat → Except String Nat) (gs : Nat → Except String SigStatus)
    (hret : gh (attempts + 1) = .ok h) (hexp : h0 + 150 < h) :
    confirmLoopT (h0 + 150) 60 gh gs attempts =
      (.expired h, [.getBlockHeight]) := by
  rw [confirmLoopT]
  simp [hret, hexp]

/-- Witness for C1: at the final attempt (attempts = 59, no budget
remaining) with the height over the bound, the loop expires even
though the status oracle would have confirmed. -/
theorem claim1_height_expiry_overrides_budget_witness :
    confirmLoopT 150 60 (fun _ => Except.ok 151)
      (fun _ => Except.ok SigStatus.confirmed) 59 =
      (LoopResult.expired 151, [RpcQuery.getBlockHeight]) :=
  claim1_height_expiry_overrides_budget 0 59 151 _ _ rfl (by norm_num)

/-- C2: if at any iteration the observed height is still within the
bound `H0 + 150` and the signature status resolves to an on-chain
error, the loop returns `Failed` with that reason immediately — never
`TimedOut`, never `Expired` — and issues no further RPC query (no
automatic retry). -/
theorem claim2_onchain_failure_is_final (h0 attempts h : Nat) (reason : String)
    (gh : Nat → Except String Nat) (gs : Nat → Except String SigStatus)
    (hret : gh (attempts + 1) = .ok h) (hin : h ≤ h0 + 150)
    (hst : gs (attempts + 1) = .ok (.failed reason)) :
    confirmLoopT (h0 + 150) 60 gh gs attempts =
      (.failed reason, [.getBlockHeight, .getSignatureStatus]) := by
  rw [confirmLoopT]
  simp [hret, hst, Nat.not_lt.mpr hin]

/-- Witness for C2: a slippage error at the first poll while in the
height window yields `Failed` with that reason. -/
theorem claim2_onchain_failure_is_final_witness :
    confirmLoopT 150 60 (fun _ => Except.ok 100)
      (fun _ => Except.ok (SigStatus.failed "slippage")) 0 =
      (LoopResult.failed "slippage",
        [RpcQuery.getBlockHeight, RpcQuery.getSignatureStatus]) :=
  claim2_onchain_failure_is_final 0 0 100 "slippage" _ _ rfl (by norm_num) rfl

/-- C3: when every RPC query returns without error, the confirmation
loop terminates within at most 60 polling iterations (fuel 60 from
attempt count 0 with the 60-attempt ceiling suffices) and yields
exactly one of `Confirmed`, `Failed`, `Expired` or `TimedOut`. -/
theorem claim3_loop_terminates_within_60 (lv : Nat)
    (gh : Nat → Except String Nat) (gs : Nat → Except String SigStatus)
    (hgh : ∀ i, ∃ x, gh i = .ok x) (hgs : ∀ i, ∃ s, gs i = .ok s) :
    ∃ r, confirmLoopFuel lv 60 gh gs 60 0 = some r ∧
      confirmLoop lv 60 gh gs 0 = r ∧
      ((∃ ht, r = .confirmed ht) ∨ (∃ e, r = .failed e) ∨
        (∃ ht, r = .expired ht) ∨ r = .timedOut) := by
  have heq := confirmLoopFuel_eq lv 60 gh gs 60 0 (by omega) (by omega)
  refine ⟨confirmLoop lv 60 gh gs 0, heq, rfl, ?_⟩
  have hnot := confirmLoopFuel_not_rpcError lv 60 gh gs hgh hgs 60 0 _ heq
  cases hr : confirmLoop lv 60 gh gs 0 with
  | confirmed ht => exact Or.inl ⟨ht, rfl⟩
  | failed e => exact Or.inr (Or.inl ⟨e, rfl⟩)
  | expired ht => exact Or.inr (Or.inr (Or.inl ⟨ht, rfl⟩))
  | timedOut => exact Or.inr (Or.inr (Or.inr rfl))
  | rpcError e => exact absurd rfl (hr ▸ hnot e)

/-- Witness for C3: a status endpoint that never sees the signature,
with all RPC calls succeeding, ends in one of the four outcomes within
60 iterations. -/
theorem claim3_loop_terminates_within_60_witness :
    ∃ r, confirmLoopFuel 1000 60 (fun _ => Except.ok 5)
        (fun _ => Except.ok SigStatus.notSeen) 60 0 = some r ∧
      confirmLoop 1000 60 (fun _ => Except.ok 5)
        (fun _ => Except.ok SigStatus.notSeen) 0 = r ∧
      ((∃ ht, r = .confirmed ht) ∨ (∃ e, r = .failed e) ∨
        (∃ ht, r = .expired ht) ∨ r = .timedOut) :=
  claim3_loop_terminates_within_60 1000 _ _
    (fun _ => ⟨5, rfl⟩) (fun _ => ⟨SigStatus.notSeen, rfl⟩)

/-- C4 counterexample: the claim says the signature-status query comes
before the height-expiry check in every iteration, the height being
re-checked only once the status was observed `None`. In the code the
height check comes first: with the height over the bound and a status
oracle that would resolve to `Some(Ok)`, the loop expires and the
status query is never issued at all (the trace holds no
`getSignatureStatus`), which the claimed ordering would forbid. -/
theorem claim4_status_before_height_counterexample :
    confirmLoopT 150 60 (fun _ => Except.ok 151)
      (fun _ => Except.ok SigStatus.confirmed) 0 =
      (LoopResult.expired 151, [RpcQuery.getBlockHeight]) ∧
    RpcQuery.getSignatureStatus ∉
      (confirmLoopT 150 60 (fun _ => Except.ok 151)
        (fun _ => Except.ok SigStatus.confirmed) 0).2 := by
  constructor
  · rw [confirmLoopT]; norm_num
  · rw [confirmLoopT]; norm_num; decide

/-- C4 amended: in every iteration of the confirmation polling loop the
block-height query and its expiry check are performed first; when the
observed height exceeds the bound the loop returns `Expired` without
querying the signature status for that iteration, and the status query
is issued exactly when the observed height is within the bound. -/
theorem claim4_height_checked_before_status (lv ma attempts : Nat)
    (gh : Nat → Except String Nat) (gs : Nat → Except String SigStatus) :
    (confirmLoopT lv ma gh gs attempts).2.head? = some .getBlockHeight ∧
    (∀ h, gh (attempts + 1) = .ok h → lv < h →
      confirmLoopT lv ma gh gs attempts = (.expired h, [.getBlockHeight])) ∧
    (∀ h, gh (attempts + 1) = .ok h → h ≤ lv →
      (confirmLoopT lv ma gh gs attempts).2.take 2 =
        [.getBlockHeight, .getSignatureStatus]) := by
  refine ⟨?_, ?_, ?_⟩
  · rw [confirmLoopT]
    cases hgh : gh (attempts + 1) with
    | error e => simp
    | ok h =>
      simp only
      by_cases hlt : lv < h
      · simp [hlt]
      · simp only [if_neg hlt]
        cases hgs : gs (attempts + 1) with
        | error e => simp
        | ok s =>
          cases s with
          | confirmed => simp
          | failed err => simp
          | notSeen =>
            simp only
            by_cases hma2 : ma ≤ attempts + 1
            · simp [hma2]
            · simp [if_neg hma2]
  · intro h hret hexp
    rw [confirmLoopT]
    simp [hret, hexp]
  · intro h hret hin
    rw [confirmLoopT]
    simp only [hret, if_neg (Nat.not_lt.mpr hin)]
    cases hgs : gs (attempts + 1) with
    | error e => simp
    | ok s =>
      cases s with
      | confirmed => simp
      | failed err => simp
      | notSeen =>
        simp only
        by_cases hma2 : ma ≤ attempts + 1
        · simp [hma2]
        · simp [if_neg hma2]

/-- Witness for the amended C4: with the height in bound and the status
not yet visible, the iteration queries height first, then status. -/
theorem claim4_height_checked_before_status_witness :
    (confirmLoopT 150 60 (fun _ => Except.ok 100)
      (fun _ => Except.ok SigStatus.notSeen) 0).2.head? =
        some RpcQuery.getBlockHeight ∧
    (confirmLoopT 150 60 (fun _ => Except.ok 100)
      (fun _ => Except.ok SigStatus.notSeen) 0).2.take 2 =
        [RpcQuery.getBlockHeight, RpcQuery.getSignatureStatus] :=
  ⟨(claim4_height_checked_before_status 150 60 0 _ _).1,
   (claim4_height_checked_before_status 150 60 0 _ _).2.2 100 rfl (by norm_num)⟩


/-! ## Claims about the transaction builder (C5-C7) -/

/-- The rebuilt message produced by the builder for a given
transaction: limit and price instructions first, original instructions
after, the wallet as fee payer and sole required signer, the original
recent blockhash. -/
def rebuiltMessage (computeUnitLimitOpt priorityFeeOpt : Option Nat)
    (walletPk : Nat) (tx : TransactionM) : MessageM :=
  { numRequiredSignatures := 1
    accountKeys := [walletPk]
    recentBlockhash := tx.message.recentBlockhash
    instructions :=
      Instr.computeUnitLimit
          (selectComputeLimit computeUnitLimitOpt tx.message.instructions.length) ::
        Instr.computeUnitPrice (priorityFeeOpt.getD 1000) ::
        tx.message.instructions }

/-- The rebuilt transaction: the rebuilt message, signed by the wallet
over exactly that message. -/
def rebuiltTransaction (computeUnitLimitOpt priorityFeeOpt : Option Nat)
    (walletPk : Nat) (tx : TransactionM) : TransactionM :=
  { signatures :=
      [{ signer := walletPk
         signedMsg := rebuiltMessage computeUnitLimitOpt priorityFeeOpt walletPk tx }]
    message := rebuiltMessage computeUnitLimitOpt priorityFeeOpt walletPk tx }

/-- The builder always succeeds and produces the rebuilt transaction. -/
theorem add_compute_budget_eq (computeUnitLimitOpt priorityFeeOpt : Option Nat)
    (walletPk : Nat) (tx : TransactionM) :
    add_compute_budget_instructions computeUnitLimitOpt priorityFeeOpt walletPk tx =
      some (rebuiltTransaction computeUnitLimitOpt priorityFeeOpt walletPk tx) := by
  simp [add_compute_budget_instructions, newTransaction, signWith,
    requiredSignerKeys, newMessage, rebuiltTransaction, rebuiltMessage]

/-- C5: whenever at least one compute directive is requested, the
instruction sequence of the submitted transaction is exactly
`[compute-unit-limit, compute-unit-price, ...original instructions]`
— limit first, price second, both before every original instruction —
and the transaction carries a fresh signature over the rebuilt message
itself, so a mutated-but-unsigned transaction is never produced. -/
theorem claim5_directive_order_and_resign
    (computeUnitLimitOpt priorityFeeOpt : Option Nat) (walletPk : Nat)
    (tx : TransactionM)
    (hreq : priorityFeeOpt.isSome = true ∨ computeUnitLimitOpt.isSome = true) :
    ∃ tx',
      applyComputeDirectives computeUnitLimitOpt priorityFeeOpt walletPk tx =
        some tx' ∧
      tx'.message.instructions =
        Instr.computeUnitLimit
            (selectComputeLimit computeUnitLimitOpt tx.message.instructions.length) ::
          Instr.computeUnitPrice (priorityFeeOpt.getD 1000) ::
          tx.message.instructions ∧
      tx'.signatures ≠ [] ∧
      ∀ s ∈ tx'.signatures, s.signedMsg = tx'.message := by
  have hif : (priorityFeeOpt.isSome || computeUnitLimitOpt.isSome) = true := by
    rcases hreq with h | h <;> simp [h]
  refine ⟨rebuiltTransaction computeUnitLimitOpt priorityFeeOpt walletPk tx,
    ?_, ?_, ?_, ?_⟩
  · simp only [applyComputeDirectives, hif, if_true]
    exact add_compute_budget_eq computeUnitLimitOpt priorityFeeOpt walletPk tx
  · simp [rebuiltTransaction, rebuiltMessage]
  · simp [rebuiltTransaction]
  · simp [rebuiltTransaction]

/-- A swap transaction as delivered by the aggregator and decoded:
fee payer 9, one raw swap instruction. -/
def sampleSwapTx : TransactionM :=
  { signatures := []
    message :=
      { numRequiredSignatures := 1
        accountKeys := [9]
        recentBlockhash := 3
        instructions := [Instr.raw 2 [0, 1] [5]] } }

/-- Witness for C5: a requested priority fee with no explicit limit
yields the limit-then-price-then-original sequence, re-signed. -/
theorem claim5_directive_order_and_resign_witness :
    ∃ tx',
      applyComputeDirectives none (some 7) 9 sampleSwapTx = some tx' ∧
      tx'.message.instructions =
        Instr.computeUnitLimit
            (selectComputeLimit none sampleSwapTx.message.instructions.length) ::
          Instr.computeUnitPrice (Option.getD (some 7) 1000) ::
          sampleSwapTx.message.instructions ∧
      tx'.signatures ≠ [] ∧
      ∀ s ∈ tx'.signatures, s.signedMsg = tx'.message :=
  claim5_directive_order_and_resign none (some 7) 9 sampleSwapTx (Or.inl rfl)

/-- C6 counterexample: the dynamic compute-unit limit is computed in
`u32`; at instruction count 85896 the addition
`200_000 + 85896 * 50_000` exceeds `2^32` and wraps to `32_704`, so
the derived limit is `32_704` instead of the claimed
`min(200_000 + 50_000 * 85896, 1_400_000) = 1_400_000`. -/
theorem claim6_derived_limit_counterexample :
    selectComputeLimit none 85896 = 32704 ∧
    min (200000 + 50000 * 85896) 1400000 = 1400000 ∧
    (32704 : Nat) ≠ 1400000 :=
  ⟨by decide, by norm_num, by norm_num⟩

/-- C6 amended: when an explicit limit is supplied it is used
unchanged for every instruction count; when none is supplied the
derived limit equals `min(200_000 + 50_000 * n, 1_400_000)` for every
`n ≤ 85895`, the range in which the `u32` arithmetic does not
overflow (beyond it the Rust `u32` computation wraps). -/
theorem claim6_derived_limit_formula (n : Nat) (hn : n ≤ 85895) :
    selectComputeLimit none n = min (200000 + 50000 * n) 1400000 ∧
    ∀ l, selectComputeLimit (some l) n = l := by
  constructor
  · have h1 : n % 4294967296 = n := Nat.mod_eq_of_lt (by omega)
    have h2 : n * 50000 % 4294967296 = n * 50000 := Nat.mod_eq_of_lt (by omega)
    have h3 : (200000 + n * 50000) % 4294967296 = 200000 + n * 50000 :=
      Nat.mod_eq_of_lt (by omega)
    simp only [selectComputeLimit, deriveComputeLimit, u32Mod, h1, h2, h3]
    rw [Nat.mul_comm]
  · intro l; rfl

/-- Witness for the amended C6: at instruction count 3 the derived
limit matches the formula and an explicit limit is used unchanged. -/
theorem claim6_derived_limit_formula_witness :
    selectComputeLimit none 3 = min (200000 + 50000 * 3) 1400000 ∧
    ∀ l, selectComputeLimit (some l) 3 = l :=
  claim6_derived_limit_formula 3 (by norm_num)

/-- If a key occurs among the first `nreq` keys and covers all of
them, it is the first key. -/
theorem head_key_of_required (keys : List Nat) (nreq w : Nat)
    (hmem : w ∈ keys.take nreq)
    (hall : (keys.take nreq).all (· = w) = true) :
    keys.head? = some w := by
  cases keys with
  | nil => simp at hmem
  | cons a t =>
    cases nreq with
    | zero => simp at hmem
    | succ k =>
      simp only [List.take_succ_cons, List.all_cons, Bool.and_eq_true,
        decide_eq_true_eq] at hall
      simp [hall.1]

/-- C7: for every decoded transaction that the preparation step signs
successfully, the transaction rebuilt by compute-directive injection
keeps the original fee payer (the first account key) and contains all
original instructions, in their original relative order, immediately
after the two injected instructions. -/
theorem claim7_rebuild_preserves_payer_and_instructions
    (walletPk : Nat) (tx prepared : TransactionM)
    (computeUnitLimitOpt priorityFeeOpt : Option Nat)
    (hprep : prepare_transaction walletPk tx = some prepared) :
    ∃ tx',
      add_compute_budget_instructions computeUnitLimitOpt priorityFeeOpt
        walletPk prepared = some tx' ∧
      tx'.message.accountKeys.head? = tx.message.accountKeys.head? ∧
      tx'.message.instructions.drop 2 = tx.message.instructions ∧
      tx'.message.instructions.take 2 =
        [Instr.computeUnitLimit
            (selectComputeLimit computeUnitLimitOpt tx.message.instructions.length),
         Instr.computeUnitPrice (priorityFeeOpt.getD 1000)] := by
  simp only [prepare_transaction, signWith, requiredSignerKeys] at hprep
  split at hprep
  case isFalse => exact absurd hprep (by simp)
  case isTrue hcond =>
    have hmsg : prepared.message = tx.message := by
      have h := Option.some.inj hprep
      rw [← h]
    have hpayer : tx.message.accountKeys.head? = some walletPk := by
      exact head_key_of_required tx.message.accountKeys
        tx.message.numRequiredSignatures walletPk hcond.1 hcond.2
    refine ⟨_, add_compute_budget_eq computeUnitLimitOpt priorityFeeOpt
      walletPk prepared, ?_, ?_, ?_⟩
    · simp [rebuiltTransaction, rebuiltMessage, hpayer]
    · simp [rebuiltTransaction, rebuiltMessage, hmsg]
    · simp [rebuiltTransaction, rebuiltMessage, hmsg]

/-- A decoded transaction whose fee payer and sole required signer is
the wallet key 7, with one raw swap instruction. -/
def sampleDecodedTx : TransactionM :=
  { signatures := []
    message :=
      { numRequiredSignatures := 1
        accountKeys := [7, 11]
        recentBlockhash := 42
        instructions := [Instr.raw 1 [0] [9]] } }

/-- The result of preparing (signing) `sampleDecodedTx` with wallet
key 7. -/
def samplePreparedTx : TransactionM :=
  { signatures := [{ signer := 7, signedMsg := sampleDecodedTx.message }]
    message := sampleDecodedTx.message }

/-- Witness for C7: preparing and rebuilding the sample transaction
keeps fee payer 7 and the original instruction after the two injected
ones. -/
theorem claim7_rebuild_preserves_payer_and_instructions_witness :
    ∃ tx',
      add_compute_budget_instructions (some 400000) none 7 samplePreparedTx =
        some tx' ∧
      tx'.message.accountKeys.head? = sampleDecodedTx.message.accountKeys.head? ∧
      tx'.message.instructions.drop 2 = sampleDecodedTx.message.instructions ∧
      tx'.message.instructions.take 2 =
        [Instr.computeUnitLimit
            (selectComputeLimit (some 400000) sampleDecodedTx.message.instructions.length),
         Instr.computeUnitPrice (Option.getD none 1000)] :=
  claim7_rebuild_preserves_payer_and_instructions 7 sampleDecodedTx
    samplePreparedTx (some 400000) none (by decide)


/-! ## Claim about result extraction (C8) -/

/-- The scan finds nothing when no entry matches the mint. -/
theorem findMintAmount_eq_none (m : String) (l : List TokenBalance)
    (h : ∀ b ∈ l, b.mint ≠ m) : findMintAmount m l = none := by
  induction l with
  | nil => rfl
  | cons b rest ih =>
    simp only [findMintAmount]
    rw [if_neg (h b (by simp))]
    exact ih (fun x hx => h x (by simp [hx]))

/-- C8: on a confirmed transaction whose metadata holds no
post-execution token-balance record for the output asset (the metadata
or the balance list may also be absent entirely), extraction returns
the zero-amount sentinel `"0"` and no error, so a confirmed outcome is
never downgraded to a failure by extraction. -/
theorem claim8_no_matching_balance_yields_zero (outputMint : String)
    (ctx : ConfirmedTx) (h : ∀ b ∈ postBalances ctx, b.mint ≠ outputMint) :
    extract_received_amount outputMint ctx = .ok "0" := by
  cases hm : ctx.meta with
  | none => simp [extract_received_amount, hm]
  | some meta =>
    cases hp : meta.post_token_balances with
    | none => simp [extract_received_amount, hm, hp]
    | some post =>
      have hb : ∀ b ∈ post, b.mint ≠ outputMint := by
        intro b hbmem
        apply h
        simp [postBalances, hm, hp, hbmem]
      simp [extract_received_amount, hm, hp,
        findMintAmount_eq_none outputMint post hb]

/-- A confirmed transaction whose only balance record is for a
different mint than the output asset. -/
def sampleConfirmedTx : ConfirmedTx :=
  { slot := 99
    meta := some { post_token_balances := some [{ mint := "othermint", amount := "5" }] } }

/-- Witness for C8: extraction on the sample confirmed transaction
with an unmatched output mint returns `Ok("0")`. -/
theorem claim8_no_matching_balance_yields_zero_witness :
    extract_received_amount "outmint" sampleConfirmedTx = .ok "0" :=
  claim8_no_matching_balance_yields_zero "outmint" sampleConfirmedTx (by decide)

/-! ## Claim about the health probe (C9) -/

/-- C9: the probe's attempted checks always form a prefix of the fixed
order (slot, block height, epoch info, latest blockhash, account
lookup); when the first three succeed and the blockhash lookup fails,
the probe stops there — the account lookup is never attempted — and
returns exactly the blockhash check's own error, so the failure is
attributable to the blockhash check; when all five succeed the probe
returns the slot and the full check list. -/
theorem claim9_probe_order_and_attribution (env : PingEnv) :
    (∃ k, (ping_rpc env).2 = pingCheckOrder.take k) ∧
    (∀ s hb ep e, env.getSlot = .ok s → env.getBlockHeight = .ok hb →
      env.getEpochInfo = .ok ep → env.getLatestBlockhash = .error e →
      ping_rpc env =
        (.error e, [.slot, .blockHeight, .epochInfo, .latestBlockhash])) ∧
    (∀ s hb ep bh ac, env.getSlot = .ok s → env.getBlockHeight = .ok hb →
      env.getEpochInfo = .ok ep → env.getLatestBlockhash = .ok bh →
      env.getAccount = .ok ac → ping_rpc env = (.ok s, pingCheckOrder)) := by
  refine ⟨?_, ?_, ?_⟩
  · cases h1 : env.getSlot with
    | error e => exact ⟨1, by simp [ping_rpc, h1]; decide⟩
    | ok s =>
      cases h2 : env.getBlockHeight with
      | error e => exact ⟨2, by simp [ping_rpc, h1, h2]; decide⟩
      | ok hb =>
        cases h3 : env.getEpochInfo with
        | error e => exact ⟨3, by simp [ping_rpc, h1, h2, h3]; decide⟩
        | ok ep =>
          cases h4 : env.getLatestBlockhash with
          | error e => exact ⟨4, by simp [ping_rpc, h1, h2, h3, h4]; decide⟩
          | ok bh =>
            cases h5 : env.getAccount with
            | error e => exact ⟨5, by simp [ping_rpc, h1, h2, h3, h4, h5]; decide⟩
            | ok ac => exact ⟨5, by simp [ping_rpc, h1, h2, h3, h4, h5]; decide⟩
  · intro s hb ep e h1 h2 h3 h4
    simp [ping_rpc, h1, h2, h3, h4]
  · intro s hb ep bh ac h1 h2 h3 h4 h5
    simp [ping_rpc, h1, h2, h3, h4, h5]

/-- A probe environment whose blockhash lookup fails while the first
three checks succeed. -/
def samplePingEnv : PingEnv :=
  { getSlot := .ok 1234
    getBlockHeight := .ok 1200
    getEpochInfo := .ok 7
    getLatestBlockhash := .error "blockhash lookup failed"
    getAccount := .ok 0 }

/-- Witness for C9: on the sample environment the probe reports the
blockhash check's own error, having attempted exactly the first four
checks. -/
theorem claim9_probe_order_and_attribution_witness :
    (∃ k, (ping_rpc samplePingEnv).2 = pingCheckOrder.take k) ∧
    ping_rpc samplePingEnv =
      (.error "blockhash lookup failed",
        [Check.slot, Check.blockHeight, Check.epochInfo, Check.latestBlockhash]) :=
  ⟨(claim9_probe_order_and_attribution samplePingEnv).1,
   (claim9_probe_order_and_attribution samplePingEnv).2.1
     1234 1200 7 "blockhash lookup failed" rfl rfl rfl rfl⟩

/-! ## Claim about mode dispatch (C10) -/

/-- C10: for every environment, a swap invocation with mode `"jito"`
or `"bloxroute"` produces an `ExecutorResult` with `success = false`
and `signature = none` and broadcasts no transaction (the
`send_transaction` call count is 0); and any mode string outside
`{"simple", "jito", "bloxroute"}` is executed identically to mode
`"simple"`. -/
theorem claim10_mode_dispatch (cmd : SwapCmd) (env : SwapEnv) :
    ((cmd.mode = "jito" ∨ cmd.mode = "bloxroute") →
      (executeCmd cmd env).1.success = false ∧
      (executeCmd cmd env).1.signature = none ∧
      (executeCmd cmd env).2 = 0) ∧
    (cmd.mode ≠ "simple" → cmd.mode ≠ "jito" → cmd.mode ≠ "bloxroute" →
      executeCmd cmd env = executeCmd { cmd with mode := "simple" } env) := by
  constructor
  · intro hmode
    unfold executeCmd execute_swap
    cases hw : env.walletLoad with
    | error e => simp [hw]
    | ok w =>
      cases hr : routeResult cmd env with
      | error e => simp [hw, hr]
      | ok route =>
        cases hst : env.getSwapTransaction route with
        | error e => simp [hw, hr, hst]
        | ok payload =>
          cases hd : env.decodeTransaction payload with
          | error e => simp [hw, hr, hst, hd]
          | ok dtx =>
            cases hp : prepare_transaction w dtx with
            | none => simp [hw, hr, hst, hd, hp]
            | some prep =>
              cases ha : applyComputeDirectives cmd.compute_unit_limit
                  cmd.priority_fee w prep with
              | none => simp [hw, hr, hst, hd, hp, ha]
              | some t =>
                rcases hmode with h | h <;> simp [hw, hr, hst, hd, hp, ha, h]
  · intro h1 h2 h3
    have hroute : routeResult { cmd with mode := "simple" } env =
        routeResult cmd env := rfl
    unfold executeCmd execute_swap
    cases hw : env.walletLoad with
    | error e => simp [hw]
    | ok w =>
      cases hr : routeResult cmd env with
      | error e => simp [hw, hroute, hr]
      | ok route =>
        cases hst : env.getSwapTransaction route with
        | error e => simp [hw, hroute, hr, hst]
        | ok payload =>
          cases hd : env.decodeTransaction payload with
          | error e => simp [hw, hroute, hr, hst, hd]
          | ok dtx =>
            cases hp : prepare_transaction w dtx with
            | none => simp [hw, hroute, hr, hst, hd, hp]
            | some prep =>
              cases ha : applyComputeDirectives cmd.compute_unit_limit
                  cmd.priority_fee w prep with
              | none => simp [hw, hroute, hr, hst, hd, hp, ha]
              | some t => simp [hw, hroute, hr, hst, hd, hp, ha, h1, h2, h3]

/-- An execution environment in which every external call succeeds. -/
def sampleSwapEnv : SwapEnv :=
  { walletLoad := .ok 7
    parseRouteInfo := fun _ => .ok "route"
    getQuote := .ok "route"
    getSwapTransaction := fun _ => .ok "payload"
    decodeTransaction := fun _ => .ok sampleDecodedTx
    blockHeightAtSend := .ok 100
    send := fun _ => .ok "sig111"
    heights := fun _ => .ok 100
    statuses := fun _ => .ok .confirmed
    getTransaction := .ok sampleConfirmedTx }

/-- A swap invocation in mode `"jito"`. -/
def sampleJitoCmd : SwapCmd :=
  { output_mint := "outmint"
    mode := "jito"
    idempotency_key := none
    route_info := none
    priority_fee := none
    compute_unit_limit := none }

/-- A swap invocation with an unrecognized mode string. -/
def sampleWeirdCmd : SwapCmd := { sampleJitoCmd with mode := "turbo" }

/-- Witness for C10: in mode `"jito"` the sample run fails with no
signature and no broadcast; the unrecognized mode `"turbo"` runs
identically to `"simple"`. -/
theorem claim10_mode_dispatch_witness :
    ((executeCmd sampleJitoCmd sampleSwapEnv).1.success = false ∧
     (executeCmd sampleJitoCmd sampleSwapEnv).1.signature = none ∧
     (executeCmd sampleJitoCmd sampleSwapEnv).2 = 0) ∧
    executeCmd sampleWeirdCmd sampleSwapEnv =
      executeCmd { sampleWeirdCmd with mode := "simple" } sampleSwapEnv :=
  ⟨(claim10_mode_dispatch sampleJitoCmd sampleSwapEnv).1 (Or.inl rfl),
   (claim10_mode_dispatch sampleWeirdCmd sampleSwapEnv).2
     (by decide) (by decide) (by decide)⟩

end ExecRs
